import Mathlib

/-!
Verification development for the `wry_bokeh_helper` repository.

The repository holds two near-identical glue modules:

* `src/pywry/bokeh_io.py` defining `export_bokeh_to_png`, and
* `src/wry_bokeh_helper/bokeh_io.py` defining `bokeh_to_image`.

Each accepts a Bokeh JSON item (a JSON-compatible mapping) and an optional
`(ResourceType, str)` pair, invokes the native `render_bokeh` call, opens the
returned locator with `urllib.request.urlopen`, reads the whole response, and
decodes the bytes with `PIL.Image.open`.  The only difference: `bokeh_to_image`
first serializes the item with `json.dumps`, while `export_bokeh_to_png`
passes the structured mapping directly.

The native renderer, the URL fetch and the image decoder are external
collaborators (a pre-built native extension, the Python standard library and
PIL); they are embedded as injected fallible functions collected in an
`Externals` record.  Each wrapper is embedded as a pure function from the
externals and its arguments to a result together with a trace of the external
calls it makes, in the order the Python code makes them.
-/

/-- A JSON-compatible value, the type of Bokeh JSON items
(`dict[str, Any]` restricted to JSON-compatible nesting).
Numbers are modelled as integers. -/
inductive Json where
  | null : Json
  | bool (b : Bool) : Json
  | num (n : Int) : Json
  | str (s : String) : Json
  | arr (items : List Json) : Json
  | obj (fields : List (String × Json)) : Json

/-- Modelled from Python's standard `json` module (an external collaborator):
the escape text for one character inside a JSON string literal, following
`json.dumps` defaults for the ASCII range (`\"`, `\\`, `\n`, `\t`, `\r`,
and `\u00XX` for the remaining control characters). -/
def jsonEscapeChar (c : Char) : String :=
  if c = '"' then "\\\""
  else if c = '\\' then "\\\\"
  else if c = '\n' then "\\n"
  else if c = '\t' then "\\t"
  else if c = '\r' then "\\r"
  else if c.toNat < 32 then
    "\\u00" ++ String.mk [(Nat.digitChar (c.toNat / 16)), (Nat.digitChar (c.toNat % 16))]
  else String.mk [c]

/-- Modelled from Python's standard `json` module: render a string as a JSON
string literal, escaping each character. -/
def jsonQuote (s : String) : String :=
  "\"" ++ String.join (s.toList.map jsonEscapeChar) ++ "\""

mutual

/-- Modelled from Python's standard `json.dumps` (an external collaborator):
serialize a JSON value to its text form with the default separators
`", "` and `": "`. -/
def Json.dumps : Json → String
  | .null => "null"
  | .bool true => "true"
  | .bool false => "false"
  | .num n => toString n
  | .str s => jsonQuote s
  | .arr items => "[" ++ Json.dumpsItems items ++ "]"
  | .obj fields => "\x7b" ++ Json.dumpsFields fields ++ "\x7d"

/-- Serialize the comma-separated items of a JSON array. -/
def Json.dumpsItems : List Json → String
  | [] => ""
  | [x] => Json.dumps x
  | x :: y :: rest => Json.dumps x ++ ", " ++ Json.dumpsItems (y :: rest)

/-- Serialize the comma-separated key-value pairs of a JSON object. -/
def Json.dumpsFields : List (String × Json) → String
  | [] => ""
  | [(k, v)] => jsonQuote k ++ ": " ++ Json.dumps v
  | (k, v) :: f :: rest =>
      jsonQuote k ++ ": " ++ Json.dumps v ++ ", " ++ Json.dumpsFields (f :: rest)

end

/-- A decoded in-memory image (`PIL.Image.Image`): pixel dimensions together
with the pixel buffer, with no further external dependency. -/
structure Image where
  width : Nat
  height : Nat
  pixels : List Nat
deriving DecidableEq, Repr

/-- The first argument of the native `render_bokeh` call: either the
structured mapping itself (as passed by `export_bokeh_to_png`) or its JSON
text serialization (as passed by `bokeh_to_image`). -/
inductive RenderInput where
  | structured (item : Json) : RenderInput
  | text (s : String) : RenderInput

/-- An observable external call made by the glue code, recorded in order.
`ρ` is the opaque `ResourceType` of the native extension.
`streamClosed` records the response byte stream being closed after the
read-to-end completes, per the owning stream abstraction's contract. -/
inductive Event (ρ : Type) where
  | renderCall (input : RenderInput) (resource : Option (ρ × String)) : Event ρ
  | fetchCall (locator : String) : Event ρ
  | streamClosed (locator : String) : Event ρ
  | decodeCall (bytes : List Nat) : Event ρ

/-- Failures surfacing from the three external collaborators, tagged with
their origin per the spec's error taxonomy and carrying the underlying
error value unmodified. -/
inductive ConvErr (ερ εf εd : Type) where
  | renderFailure (e : ερ) : ConvErr ερ εf εd
  | fetchFailure (e : εf) : ConvErr ερ εf εd
  | decodeFailure (e : εd) : ConvErr ερ εf εd

/-- The three external collaborators, injected as fallible functions.
`render_bokeh` is the opaque native renderer returning a locator string;
`urlopen_read` models `urllib.request.urlopen` followed by `.read()`,
returning the full byte sequence of the response;
`image_open` models `PIL.Image.open` over an in-memory byte buffer. -/
structure Externals (ρ ερ εf εd : Type) where
  render_bokeh : RenderInput → Option (ρ × String) → Except ερ String
  urlopen_read : String → Except εf (List Nat)
  image_open : List Nat → Except εd Image

/-- Embeds `export_bokeh_to_png` from `src/pywry/bokeh_io.py`: call
`render_bokeh(bokeh_json_item, resource)` with the structured mapping,
open the returned locator, read the whole response, decode the bytes.
Any external failure aborts the pipeline and propagates.  The second
component is the trace of external calls, in program order. -/
def export_bokeh_to_png (ext : Externals ρ ερ εf εd) (bokeh_json_item : Json)
    (resource : Option (ρ × String)) :
    Except (ConvErr ερ εf εd) Image × List (Event ρ) :=
  match ext.render_bokeh (.structured bokeh_json_item) resource with
  | .error e =>
      (.error (.renderFailure e), [.renderCall (.structured bokeh_json_item) resource])
  | .ok png =>
    match ext.urlopen_read png with
    | .error e =>
        (.error (.fetchFailure e),
         [.renderCall (.structured bokeh_json_item) resource, .fetchCall png])
    | .ok bytes =>
      match ext.image_open bytes with
      | .error e =>
          (.error (.decodeFailure e),
           [.renderCall (.structured bokeh_json_item) resource, .fetchCall png,
            .streamClosed png, .decodeCall bytes])
      | .ok img =>
          (.ok img,
           [.renderCall (.structured bokeh_json_item) resource, .fetchCall png,
            .streamClosed png, .decodeCall bytes])

/-- Embeds `bokeh_to_image` from `src/wry_bokeh_helper/bokeh_io.py`: call
`render_bokeh(json.dumps(bokeh_json_item), resource)` with the serialized
text, open the returned locator, read the whole response, decode the bytes.
Identical to `export_bokeh_to_png` except for the `json.dumps` step. -/
def bokeh_to_image (ext : Externals ρ ερ εf εd) (bokeh_json_item : Json)
    (resource : Option (ρ × String)) :
    Except (ConvErr ερ εf εd) Image × List (Event ρ) :=
  match ext.render_bokeh (.text (Json.dumps bokeh_json_item)) resource with
  | .error e =>
      (.error (.renderFailure e), [.renderCall (.text (Json.dumps bokeh_json_item)) resource])
  | .ok png =>
    match ext.urlopen_read png with
    | .error e =>
        (.error (.fetchFailure e),
         [.renderCall (.text (Json.dumps bokeh_json_item)) resource, .fetchCall png])
    | .ok bytes =>
      match ext.image_open bytes with
      | .error e =>
          (.error (.decodeFailure e),
           [.renderCall (.text (Json.dumps bokeh_json_item)) resource, .fetchCall png,
            .streamClosed png, .decodeCall bytes])
      | .ok img =>
          (.ok img,
           [.renderCall (.text (Json.dumps bokeh_json_item)) resource, .fetchCall png,
            .streamClosed png, .decodeCall bytes])

/-- The render-fetch-decode pipeline shared by both wrappers, abstracted over
the form of the first argument of the native call.  `export_bokeh_to_png`
instantiates it with the structured mapping and `bokeh_to_image` with the
serialized text. -/
def pipeline (ext : Externals ρ ερ εf εd) (input : RenderInput)
    (resource : Option (ρ × String)) :
    Except (ConvErr ερ εf εd) Image × List (Event ρ) :=
  match ext.render_bokeh input resource with
  | .error e =>
      (.error (.renderFailure e), [.renderCall input resource])
  | .ok png =>
    match ext.urlopen_read png with
    | .error e =>
        (.error (.fetchFailure e),
         [.renderCall input resource, .fetchCall png])
    | .ok bytes =>
      match ext.image_open bytes with
      | .error e =>
          (.error (.decodeFailure e),
           [.renderCall input resource, .fetchCall png,
            .streamClosed png, .decodeCall bytes])
      | .ok img =>
          (.ok img,
           [.renderCall input resource, .fetchCall png,
            .streamClosed png, .decodeCall bytes])

/-- `export_bokeh_to_png` is the pipeline at the structured mapping. -/
theorem export_eq_pipeline (ext : Externals ρ ερ εf εd) (d : Json)
    (r : Option (ρ × String)) :
    export_bokeh_to_png ext d r = pipeline ext (.structured d) r := by
  unfold export_bokeh_to_png pipeline
  rfl

/-- `bokeh_to_image` is the pipeline at the serialized text. -/
theorem bokeh_eq_pipeline (ext : Externals ρ ερ εf εd) (d : Json)
    (r : Option (ρ × String)) :
    bokeh_to_image ext d r = pipeline ext (.text (Json.dumps d)) r := by
  unfold bokeh_to_image pipeline
  rfl

/-- If the native render call errors, the pipeline stops with a render
failure carrying that error, and the trace holds only the render call. -/
theorem pipeline_render_error (ext : Externals ρ ερ εf εd) (input : RenderInput)
    (r : Option (ρ × String)) (e : ερ)
    (h : ext.render_bokeh input r = .error e) :
    pipeline ext input r = (.error (.renderFailure e), [.renderCall input r]) := by
  unfold pipeline
  rw [h]

/-- If the render call succeeds but the fetch errors, the pipeline stops with
a fetch failure carrying that error, and the trace ends at the fetch call. -/
theorem pipeline_fetch_error (ext : Externals ρ ερ εf εd) (input : RenderInput)
    (r : Option (ρ × String)) (png : String) (e : εf)
    (h1 : ext.render_bokeh input r = .ok png)
    (h2 : ext.urlopen_read png = .error e) :
    pipeline ext input r =
      (.error (.fetchFailure e), [.renderCall input r, .fetchCall png]) := by
  unfold pipeline
  simp only [h1, h2]

/-- If render and fetch succeed but the decode errors, the pipeline stops
with a decode failure carrying that error, after the stream was read to the
end and closed. -/
theorem pipeline_decode_error (ext : Externals ρ ερ εf εd) (input : RenderInput)
    (r : Option (ρ × String)) (png : String) (bytes : List Nat) (e : εd)
    (h1 : ext.render_bokeh input r = .ok png)
    (h2 : ext.urlopen_read png = .ok bytes)
    (h3 : ext.image_open bytes = .error e) :
    pipeline ext input r =
      (.error (.decodeFailure e),
       [.renderCall input r, .fetchCall png, .streamClosed png, .decodeCall bytes]) := by
  unfold pipeline
  simp only [h1, h2, h3]

/-- If all three stages succeed, the pipeline returns the decoded image and
the full four-event trace. -/
theorem pipeline_ok (ext : Externals ρ ερ εf εd) (input : RenderInput)
    (r : Option (ρ × String)) (png : String) (bytes : List Nat) (img : Image)
    (h1 : ext.render_bokeh input r = .ok png)
    (h2 : ext.urlopen_read png = .ok bytes)
    (h3 : ext.image_open bytes = .ok img) :
    pipeline ext input r =
      (.ok img,
       [.renderCall input r, .fetchCall png, .streamClosed png, .decodeCall bytes]) := by
  unfold pipeline
  simp only [h1, h2, h3]

/-- Every pipeline run has one of four outcomes, each with its exact trace. -/
theorem pipeline_shape (ext : Externals ρ ερ εf εd) (input : RenderInput)
    (r : Option (ρ × String)) :
    (∃ e, ext.render_bokeh input r = .error e ∧
      pipeline ext input r = (.error (.renderFailure e), [.renderCall input r])) ∨
    (∃ png e, ext.render_bokeh input r = .ok png ∧ ext.urlopen_read png = .error e ∧
      pipeline ext input r =
        (.error (.fetchFailure e), [.renderCall input r, .fetchCall png])) ∨
    (∃ png bytes e, ext.render_bokeh input r = .ok png ∧
      ext.urlopen_read png = .ok bytes ∧ ext.image_open bytes = .error e ∧
      pipeline ext input r =
        (.error (.decodeFailure e),
         [.renderCall input r, .fetchCall png, .streamClosed png, .decodeCall bytes])) ∨
    (∃ png bytes img, ext.render_bokeh input r = .ok png ∧
      ext.urlopen_read png = .ok bytes ∧ ext.image_open bytes = .ok img ∧
      pipeline ext input r =
        (.ok img,
         [.renderCall input r, .fetchCall png, .streamClosed png, .decodeCall bytes])) := by
  cases h1 : ext.render_bokeh input r with
  | error e => exact Or.inl ⟨e, rfl, pipeline_render_error ext input r e h1⟩
  | ok png =>
    cases h2 : ext.urlopen_read png with
    | error e =>
        exact Or.inr (Or.inl ⟨png, e, rfl, h2, pipeline_fetch_error ext input r png e h1 h2⟩)
    | ok bytes =>
      cases h3 : ext.image_open bytes with
      | error e =>
          exact Or.inr (Or.inr (Or.inl
            ⟨png, bytes, e, rfl, h2, h3, pipeline_decode_error ext input r png bytes e h1 h2 h3⟩))
      | ok img =>
          exact Or.inr (Or.inr (Or.inr
            ⟨png, bytes, img, rfl, h2, h3, pipeline_ok ext input r png bytes img h1 h2 h3⟩))

/-- The first external call of every pipeline run is the render call, with
the caller's input and resource untouched. -/
theorem pipeline_trace_head (ext : Externals ρ ερ εf εd) (input : RenderInput)
    (r : Option (ρ × String)) :
    (pipeline ext input r).2.head? = some (.renderCall input r) := by
  rcases pipeline_shape ext input r with
      ⟨e, _, hp⟩ | ⟨png, e, _, _, hp⟩ | ⟨png, bytes, e, _, _, _, hp⟩ |
      ⟨png, bytes, img, _, _, _, hp⟩ <;>
    · rw [hp]
      rfl

/-- A successful pipeline run determines the locator, the fetched bytes, the
decoded image and the full trace. -/
theorem pipeline_ok_inv (ext : Externals ρ ερ εf εd) (input : RenderInput)
    (r : Option (ρ × String)) (img : Image)
    (h : (pipeline ext input r).1 = .ok img) :
    ∃ png bytes, ext.render_bokeh input r = .ok png ∧
      ext.urlopen_read png = .ok bytes ∧ ext.image_open bytes = .ok img ∧
      pipeline ext input r =
        (.ok img,
         [.renderCall input r, .fetchCall png, .streamClosed png, .decodeCall bytes]) := by
  rcases pipeline_shape ext input r with
      ⟨e, _, hp⟩ | ⟨png, e, _, _, hp⟩ | ⟨png, bytes, e, _, _, _, hp⟩ |
      ⟨png, bytes, img2, h1, h2, h3, hp⟩
  · rw [hp] at h
    exact absurd h (by simp)
  · rw [hp] at h
    exact absurd h (by simp)
  · rw [hp] at h
    exact absurd h (by simp)
  · rw [hp] at h
    simp only [Except.ok.injEq] at h
    subst h
    exact ⟨png, bytes, h1, h2, h3, hp⟩

/-- Returns `true` exactly on fetch events; used to count fetch calls. -/
def Event.isFetchCall : Event ρ → Bool
  | .fetchCall _ => true
  | _ => false

/-- A sample plot description, the spec's scenario item. -/
def samplePlot : Json := .obj [("type", .str "circle")]

/-- A deterministic stub environment in which every stage succeeds: a fixed
locator, a fixed byte sequence (the PNG signature), and a 10 by 10 decoded
image over whatever bytes arrive. -/
def stubExt : Externals Nat String String String where
  render_bokeh := fun _ _ => .ok "http://localhost/plot.png"
  urlopen_read := fun _ => .ok [137, 80, 78, 71, 13, 10, 26, 10]
  image_open := fun bytes => .ok ⟨10, 10, bytes⟩

/-- A stub environment whose native renderer always fails. -/
def stubRenderFail : Externals Nat String String String where
  render_bokeh := fun _ _ => .error "renderer crashed"
  urlopen_read := fun _ => .ok []
  image_open := fun bytes => .ok ⟨1, 1, bytes⟩

/-- A stub environment whose renderer succeeds but whose fetch fails. -/
def stubFetchFail : Externals Nat String String String where
  render_bokeh := fun _ _ => .ok "http://localhost/missing.png"
  urlopen_read := fun _ => .error "connection refused"
  image_open := fun bytes => .ok ⟨1, 1, bytes⟩

/-- A stub environment whose renderer and fetch succeed but whose decoder
rejects every byte sequence. -/
def stubDecodeFail : Externals Nat String String String where
  render_bokeh := fun _ _ => .ok "http://localhost/broken.png"
  urlopen_read := fun _ => .ok [0, 1, 2]
  image_open := fun _ => .error "cannot identify image file"

/-- Claim C1: for every plot description and every resource reference
(including `none`), both wrappers pass the resource reference through
unchanged as the second argument of the native render call; when it is
absent (`none`), the render call receives the no-resource marker `none`. -/
theorem resource_reference_passthrough (ext : Externals ρ ερ εf εd) (d : Json)
    (r : Option (ρ × String)) :
    (export_bokeh_to_png ext d r).2.head? =
      some (.renderCall (.structured d) r) ∧
    (bokeh_to_image ext d r).2.head? =
      some (.renderCall (.text (Json.dumps d)) r) := by
  rw [export_eq_pipeline, bokeh_eq_pipeline]
  exact ⟨pipeline_trace_head ext (.structured d) r,
         pipeline_trace_head ext (.text (Json.dumps d)) r⟩

/-- Claim C2: of the two variants, exactly one (`bokeh_to_image`) hands the
native render call the JSON text serialization of the plot description,
while the other (`export_bokeh_to_png`) hands it the structured mapping
directly; the two forms are distinct values, so exactly one variant
serializes. -/
theorem serialization_convention (ext : Externals ρ ερ εf εd) (d : Json)
    (r : Option (ρ × String)) :
    (bokeh_to_image ext d r).2.head? =
      some (.renderCall (.text (Json.dumps d)) r) ∧
    (export_bokeh_to_png ext d r).2.head? =
      some (.renderCall (.structured d) r) ∧
    RenderInput.text (Json.dumps d) ≠ RenderInput.structured d := by
  rw [export_eq_pipeline, bokeh_eq_pipeline]
  exact ⟨pipeline_trace_head ext (.text (Json.dumps d)) r,
         pipeline_trace_head ext (.structured d) r,
         fun h => RenderInput.noConfusion h⟩

/-- Claim C3: when the native render call fails, each wrapper surfaces the
underlying error unmodified as a render failure, and the trace holds only
the render call: no fetch is ever opened and no decode occurs. -/
theorem render_failure_propagates (ext : Externals ρ ερ εf εd) (d : Json)
    (r : Option (ρ × String)) (e1 e2 : ερ)
    (h1 : ext.render_bokeh (.structured d) r = .error e1)
    (h2 : ext.render_bokeh (.text (Json.dumps d)) r = .error e2) :
    export_bokeh_to_png ext d r =
      (.error (.renderFailure e1), [.renderCall (.structured d) r]) ∧
    bokeh_to_image ext d r =
      (.error (.renderFailure e2), [.renderCall (.text (Json.dumps d)) r]) ∧
    (∀ l, Event.fetchCall l ∉ (export_bokeh_to_png ext d r).2) ∧
    (∀ b, Event.decodeCall b ∉ (export_bokeh_to_png ext d r).2) ∧
    (∀ l, Event.fetchCall l ∉ (bokeh_to_image ext d r).2) ∧
    (∀ b, Event.decodeCall b ∉ (bokeh_to_image ext d r).2) := by
  have he : export_bokeh_to_png ext d r =
      (.error (.renderFailure e1), [.renderCall (.structured d) r]) := by
    rw [export_eq_pipeline]
    exact pipeline_render_error ext (.structured d) r e1 h1
  have hb : bokeh_to_image ext d r =
      (.error (.renderFailure e2), [.renderCall (.text (Json.dumps d)) r]) := by
    rw [bokeh_eq_pipeline]
    exact pipeline_render_error ext (.text (Json.dumps d)) r e2 h2
  refine ⟨he, hb, ?_, ?_, ?_, ?_⟩ <;> intro x <;> simp [he, hb]

/-- Claim C3 witness: the stub whose renderer crashes exercises both
wrappers, each returning the render failure with the single-event trace. -/
theorem render_failure_propagates_witness :
    export_bokeh_to_png stubRenderFail samplePlot none =
      (.error (.renderFailure "renderer crashed"),
       [.renderCall (.structured samplePlot) none]) ∧
    bokeh_to_image stubRenderFail samplePlot none =
      (.error (.renderFailure "renderer crashed"),
       [.renderCall (.text (Json.dumps samplePlot)) none]) := by
  have h := render_failure_propagates stubRenderFail samplePlot none
    "renderer crashed" "renderer crashed" rfl rfl
  exact ⟨h.1, h.2.1⟩

/-- Claim C4: when the render call succeeds but opening or reading the
locator fails, each wrapper surfaces the underlying error unmodified as a
fetch failure, and its trace ends at the fetch call: no decode occurs. -/
theorem fetch_failure_propagates (ext : Externals ρ ερ εf εd) (d : Json)
    (r : Option (ρ × String)) (p1 p2 : String) (e1 e2 : εf)
    (h1 : ext.render_bokeh (.structured d) r = .ok p1)
    (h2 : ext.urlopen_read p1 = .error e1)
    (h3 : ext.render_bokeh (.text (Json.dumps d)) r = .ok p2)
    (h4 : ext.urlopen_read p2 = .error e2) :
    export_bokeh_to_png ext d r =
      (.error (.fetchFailure e1),
       [.renderCall (.structured d) r, .fetchCall p1]) ∧
    bokeh_to_image ext d r =
      (.error (.fetchFailure e2),
       [.renderCall (.text (Json.dumps d)) r, .fetchCall p2]) ∧
    (∀ b, Event.decodeCall b ∉ (export_bokeh_to_png ext d r).2) ∧
    (∀ b, Event.decodeCall b ∉ (bokeh_to_image ext d r).2) := by
  have he : export_bokeh_to_png ext d r =
      (.error (.fetchFailure e1),
       [.renderCall (.structured d) r, .fetchCall p1]) := by
    rw [export_eq_pipeline]
    exact pipeline_fetch_error ext (.structured d) r p1 e1 h1 h2
  have hb : bokeh_to_image ext d r =
      (.error (.fetchFailure e2),
       [.renderCall (.text (Json.dumps d)) r, .fetchCall p2]) := by
    rw [bokeh_eq_pipeline]
    exact pipeline_fetch_error ext (.text (Json.dumps d)) r p2 e2 h3 h4
  refine ⟨he, hb, ?_, ?_⟩ <;> intro b <;> simp [he, hb]

/-- Claim C4 witness: the stub whose fetch is refused exercises both
wrappers, each returning the fetch failure with the two-event trace. -/
theorem fetch_failure_propagates_witness :
    export_bokeh_to_png stubFetchFail samplePlot none =
      (.error (.fetchFailure "connection refused"),
       [.renderCall (.structured samplePlot) none,
        .fetchCall "http://localhost/missing.png"]) ∧
    bokeh_to_image stubFetchFail samplePlot none =
      (.error (.fetchFailure "connection refused"),
       [.renderCall (.text (Json.dumps samplePlot)) none,
        .fetchCall "http://localhost/missing.png"]) := by
  have h := fetch_failure_propagates stubFetchFail samplePlot none
    "http://localhost/missing.png" "http://localhost/missing.png"
    "connection refused" "connection refused" rfl rfl rfl rfl
  exact ⟨h.1, h.2.1⟩

/-- Claim C5: when render and fetch succeed, each wrapper fails with a
decode failure exactly when the fetched bytes are not a valid PNG, where
validity is the image decoder's acceptance contract; invalid bytes never
produce a successful return. -/
theorem decode_failure_iff_invalid_png (ext : Externals ρ ερ εf εd) (d : Json)
    (r : Option (ρ × String)) (validPNG : List Nat → Prop)
    (p1 p2 : String) (b1 b2 : List Nat)
    (h1 : ext.render_bokeh (.structured d) r = .ok p1)
    (h2 : ext.urlopen_read p1 = .ok b1)
    (h3 : ext.render_bokeh (.text (Json.dumps d)) r = .ok p2)
    (h4 : ext.urlopen_read p2 = .ok b2)
    (hdec : ∀ b, (∃ i, ext.image_open b = .ok i) ↔ validPNG b) :
    ((∃ e, (export_bokeh_to_png ext d r).1 = .error (.decodeFailure e)) ↔
       ¬ validPNG b1) ∧
    ((∃ e, (bokeh_to_image ext d r).1 = .error (.decodeFailure e)) ↔
       ¬ validPNG b2) := by
  rw [export_eq_pipeline, bokeh_eq_pipeline]
  constructor
  · cases hi : ext.image_open b1 with
    | error e =>
        rw [pipeline_decode_error ext (.structured d) r p1 b1 e h1 h2 hi]
        constructor
        · intro _ hv
          rcases (hdec b1).2 hv with ⟨i, hok⟩
          rw [hi] at hok
          cases hok
        · intro _
          exact ⟨e, rfl⟩
    | ok i =>
        rw [pipeline_ok ext (.structured d) r p1 b1 i h1 h2 hi]
        have hv : validPNG b1 := (hdec b1).1 ⟨i, hi⟩
        simp [hv]
  · cases hi : ext.image_open b2 with
    | error e =>
        rw [pipeline_decode_error ext (.text (Json.dumps d)) r p2 b2 e h3 h4 hi]
        constructor
        · intro _ hv
          rcases (hdec b2).2 hv with ⟨i, hok⟩
          rw [hi] at hok
          cases hok
        · intro _
          exact ⟨e, rfl⟩
    | ok i =>
        rw [pipeline_ok ext (.text (Json.dumps d)) r p2 b2 i h3 h4 hi]
        have hv : validPNG b2 := (hdec b2).1 ⟨i, hi⟩
        simp [hv]

/-- Claim C5 witness: against the stub whose decoder rejects everything,
with the empty validity predicate, both wrappers report a decode failure. -/
theorem decode_failure_iff_invalid_png_witness :
    ((∃ e, (export_bokeh_to_png stubDecodeFail samplePlot none).1 =
        .error (.decodeFailure e)) ↔ ¬ False) ∧
    ((∃ e, (bokeh_to_image stubDecodeFail samplePlot none).1 =
        .error (.decodeFailure e)) ↔ ¬ False) := by
  exact decode_failure_iff_invalid_png stubDecodeFail samplePlot none
    (fun _ => False) "http://localhost/broken.png" "http://localhost/broken.png"
    [0, 1, 2] [0, 1, 2] rfl rfl rfl rfl (fun b => by simp [stubDecodeFail])

/-- Claim C6: on a successful return, the returned image is the decode of
exactly the full byte sequence read from the locator (so it carries no
further external dependency), and the response stream was read to the end
and closed before the return: the trace records the stream close between
the fetch and the decode. -/
theorem success_consumes_and_closes_stream (ext : Externals ρ ερ εf εd)
    (d : Json) (r : Option (ρ × String)) (img1 img2 : Image)
    (h1 : (export_bokeh_to_png ext d r).1 = .ok img1)
    (h2 : (bokeh_to_image ext d r).1 = .ok img2) :
    (∃ p b, ext.render_bokeh (.structured d) r = .ok p ∧
       ext.urlopen_read p = .ok b ∧ ext.image_open b = .ok img1 ∧
       (export_bokeh_to_png ext d r).2 =
         [.renderCall (.structured d) r, .fetchCall p,
          .streamClosed p, .decodeCall b]) ∧
    (∃ p b, ext.render_bokeh (.text (Json.dumps d)) r = .ok p ∧
       ext.urlopen_read p = .ok b ∧ ext.image_open b = .ok img2 ∧
       (bokeh_to_image ext d r).2 =
         [.renderCall (.text (Json.dumps d)) r, .fetchCall p,
          .streamClosed p, .decodeCall b]) := by
  rw [export_eq_pipeline] at h1 ⊢
  rw [bokeh_eq_pipeline] at h2 ⊢
  constructor
  · rcases pipeline_ok_inv ext (.structured d) r img1 h1 with ⟨p, b, hr, hf, hi, hp⟩
    exact ⟨p, b, hr, hf, hi, by rw [hp]⟩
  · rcases pipeline_ok_inv ext (.text (Json.dumps d)) r img2 h2 with ⟨p, b, hr, hf, hi, hp⟩
    exact ⟨p, b, hr, hf, hi, by rw [hp]⟩

/-- Claim C6 witness: against the all-success stub both wrappers return the
decoded image of the fetched PNG-signature bytes, with the stream-closing
four-event trace. -/
theorem success_consumes_and_closes_stream_witness :
    (∃ p b, stubExt.render_bokeh (.structured samplePlot) none = .ok p ∧
       stubExt.urlopen_read p = .ok b ∧
       stubExt.image_open b = .ok ⟨10, 10, [137, 80, 78, 71, 13, 10, 26, 10]⟩ ∧
       (export_bokeh_to_png stubExt samplePlot none).2 =
         [.renderCall (.structured samplePlot) none, .fetchCall p,
          .streamClosed p, .decodeCall b]) ∧
    (∃ p b, stubExt.render_bokeh (.text (Json.dumps samplePlot)) none = .ok p ∧
       stubExt.urlopen_read p = .ok b ∧
       stubExt.image_open b = .ok ⟨10, 10, [137, 80, 78, 71, 13, 10, 26, 10]⟩ ∧
       (bokeh_to_image stubExt samplePlot none).2 =
         [.renderCall (.text (Json.dumps samplePlot)) none, .fetchCall p,
          .streamClosed p, .decodeCall b]) :=
  success_consumes_and_closes_stream stubExt samplePlot none
    ⟨10, 10, [137, 80, 78, 71, 13, 10, 26, 10]⟩
    ⟨10, 10, [137, 80, 78, 71, 13, 10, 26, 10]⟩ rfl rfl

/-- Claim C7: an invocation touches nothing beyond the pipeline: its trace
is exactly one of three lists, each starting with the single render call
carrying the caller's plot description (structured, or serialized) and
resource unmodified, followed at most by the single fetch, its stream close
and the decode; no other effect (no write, no global mutation) appears. -/
theorem frame_only_pipeline_effects (ext : Externals ρ ερ εf εd) (d : Json)
    (r : Option (ρ × String)) :
    (∃ p b,
       (export_bokeh_to_png ext d r).2 = [.renderCall (.structured d) r] ∨
       (export_bokeh_to_png ext d r).2 =
         [.renderCall (.structured d) r, .fetchCall p] ∨
       (export_bokeh_to_png ext d r).2 =
         [.renderCall (.structured d) r, .fetchCall p,
          .streamClosed p, .decodeCall b]) ∧
    (∃ p b,
       (bokeh_to_image ext d r).2 = [.renderCall (.text (Json.dumps d)) r] ∨
       (bokeh_to_image ext d r).2 =
         [.renderCall (.text (Json.dumps d)) r, .fetchCall p] ∨
       (bokeh_to_image ext d r).2 =
         [.renderCall (.text (Json.dumps d)) r, .fetchCall p,
          .streamClosed p, .decodeCall b]) := by
  rw [export_eq_pipeline, bokeh_eq_pipeline]
  constructor
  · rcases pipeline_shape ext (.structured d) r with
        ⟨e, _, hp⟩ | ⟨p, e, _, _, hp⟩ | ⟨p, b, e, _, _, _, hp⟩ |
        ⟨p, b, i, _, _, _, hp⟩
    · exact ⟨"", [], Or.inl (by rw [hp])⟩
    · exact ⟨p, [], Or.inr (Or.inl (by rw [hp]))⟩
    · exact ⟨p, b, Or.inr (Or.inr (by rw [hp]))⟩
    · exact ⟨p, b, Or.inr (Or.inr (by rw [hp]))⟩
  · rcases pipeline_shape ext (.text (Json.dumps d)) r with
        ⟨e, _, hp⟩ | ⟨p, e, _, _, hp⟩ | ⟨p, b, e, _, _, _, hp⟩ |
        ⟨p, b, i, _, _, _, hp⟩
    · exact ⟨"", [], Or.inl (by rw [hp])⟩
    · exact ⟨p, [], Or.inr (Or.inl (by rw [hp]))⟩
    · exact ⟨p, b, Or.inr (Or.inr (by rw [hp]))⟩
    · exact ⟨p, b, Or.inr (Or.inr (by rw [hp]))⟩

/-- Claim C8: the wrappers are deterministic functions of the externals and
their arguments, so two invocations with identical inputs yield identical
results; in particular two successful runs return images with identical
pixel dimensions, for each variant. -/
theorem deterministic_identical_results (ext : Externals ρ ερ εf εd) (d : Json)
    (r : Option (ρ × String)) (img1 img2 img3 img4 : Image)
    (h1 : (export_bokeh_to_png ext d r).1 = .ok img1)
    (h2 : (export_bokeh_to_png ext d r).1 = .ok img2)
    (h3 : (bokeh_to_image ext d r).1 = .ok img3)
    (h4 : (bokeh_to_image ext d r).1 = .ok img4) :
    img1 = img2 ∧ img1.width = img2.width ∧ img1.height = img2.height ∧
    img3 = img4 ∧ img3.width = img4.width ∧ img3.height = img4.height := by
  rw [h1] at h2
  rw [h3] at h4
  injection h2 with h2
  injection h4 with h4
  subst h2
  subst h4
  exact ⟨rfl, rfl, rfl, rfl, rfl, rfl⟩

/-- Claim C8 witness: two runs of each wrapper against the deterministic
all-success stub give one and the same 10 by 10 image. -/
theorem deterministic_identical_results_witness :
    (⟨10, 10, [137, 80, 78, 71, 13, 10, 26, 10]⟩ : Image) =
      ⟨10, 10, [137, 80, 78, 71, 13, 10, 26, 10]⟩ ∧
    (10 : Nat) = 10 ∧ (10 : Nat) = 10 ∧
    (⟨10, 10, [137, 80, 78, 71, 13, 10, 26, 10]⟩ : Image) =
      ⟨10, 10, [137, 80, 78, 71, 13, 10, 26, 10]⟩ ∧
    (10 : Nat) = 10 ∧ (10 : Nat) = 10 :=
  deterministic_identical_results stubExt samplePlot none
    ⟨10, 10, [137, 80, 78, 71, 13, 10, 26, 10]⟩
    ⟨10, 10, [137, 80, 78, 71, 13, 10, 26, 10]⟩
    ⟨10, 10, [137, 80, 78, 71, 13, 10, 26, 10]⟩
    ⟨10, 10, [137, 80, 78, 71, 13, 10, 26, 10]⟩ rfl rfl rfl rfl

/-- Claim C9: both variants run the same fetch-then-decode pipeline on the
native call's return value, so whenever the native renderer answers the
JSON text serialization of a description the same way as the structured
description itself, the two wrappers return the same result and their
traces agree beyond the initial render event. -/
theorem variants_equal_modulo_serialization (ext : Externals ρ ερ εf εd)
    (d : Json) (r : Option (ρ × String))
    (h : ext.render_bokeh (.text (Json.dumps d)) r =
           ext.render_bokeh (.structured d) r) :
    (bokeh_to_image ext d r).1 = (export_bokeh_to_png ext d r).1 ∧
    (bokeh_to_image ext d r).2.tail = (export_bokeh_to_png ext d r).2.tail := by
  rw [export_eq_pipeline, bokeh_eq_pipeline]
  cases hr : ext.render_bokeh (.structured d) r with
  | error e =>
      rw [pipeline_render_error ext (.structured d) r e hr,
          pipeline_render_error ext (.text (Json.dumps d)) r e (h.trans hr)]
      exact ⟨rfl, rfl⟩
  | ok png =>
    have hb : ext.render_bokeh (.text (Json.dumps d)) r = .ok png := h.trans hr
    cases hf : ext.urlopen_read png with
    | error e =>
        rw [pipeline_fetch_error ext (.structured d) r png e hr hf,
            pipeline_fetch_error ext (.text (Json.dumps d)) r png e hb hf]
        exact ⟨rfl, rfl⟩
    | ok bytes =>
      cases hi : ext.image_open bytes with
      | error e =>
          rw [pipeline_decode_error ext (.structured d) r png bytes e hr hf hi,
              pipeline_decode_error ext (.text (Json.dumps d)) r png bytes e hb hf hi]
          exact ⟨rfl, rfl⟩
      | ok img =>
          rw [pipeline_ok ext (.structured d) r png bytes img hr hf hi,
              pipeline_ok ext (.text (Json.dumps d)) r png bytes img hb hf hi]
          exact ⟨rfl, rfl⟩

/-- Claim C9 witness: the all-success stub ignores the form of its first
argument, so both wrappers agree on result and post-render trace. -/
theorem variants_equal_modulo_serialization_witness :
    (bokeh_to_image stubExt samplePlot none).1 =
      (export_bokeh_to_png stubExt samplePlot none).1 ∧
    (bokeh_to_image stubExt samplePlot none).2.tail =
      (export_bokeh_to_png stubExt samplePlot none).2.tail :=
  variants_equal_modulo_serialization stubExt samplePlot none rfl

/-- Claim C10: in every successful run of either wrapper, the fetch happens
exactly once, on exactly the locator the native render call returned, and
the returned image is the decode of exactly the full byte sequence that
fetch produced: filtering the trace for fetch events leaves the single
fetch of that locator, and the decode consumes the unmodified bytes. -/
theorem locator_passthrough_single_fetch (ext : Externals ρ ερ εf εd)
    (d : Json) (r : Option (ρ × String)) (img1 img2 : Image)
    (h1 : (export_bokeh_to_png ext d r).1 = .ok img1)
    (h2 : (bokeh_to_image ext d r).1 = .ok img2) :
    (∃ p b, ext.render_bokeh (.structured d) r = .ok p ∧
       (export_bokeh_to_png ext d r).2.filter (fun ev => ev.isFetchCall) =
         [.fetchCall p] ∧
       ext.urlopen_read p = .ok b ∧ ext.image_open b = .ok img1 ∧
       Event.decodeCall b ∈ (export_bokeh_to_png ext d r).2) ∧
    (∃ p b, ext.render_bokeh (.text (Json.dumps d)) r = .ok p ∧
       (bokeh_to_image ext d r).2.filter (fun ev => ev.isFetchCall) =
         [.fetchCall p] ∧
       ext.urlopen_read p = .ok b ∧ ext.image_open b = .ok img2 ∧
       Event.decodeCall b ∈ (bokeh_to_image ext d r).2) := by
  rw [export_eq_pipeline] at h1 ⊢
  rw [bokeh_eq_pipeline] at h2 ⊢
  constructor
  · rcases pipeline_ok_inv ext (.structured d) r img1 h1 with ⟨p, b, hr, hf, hi, hp⟩
    refine ⟨p, b, hr, ?_, hf, hi, ?_⟩
    · rw [hp]
      simp [Event.isFetchCall]
    · rw [hp]
      simp
  · rcases pipeline_ok_inv ext (.text (Json.dumps d)) r img2 h2 with ⟨p, b, hr, hf, hi, hp⟩
    refine ⟨p, b, hr, ?_, hf, hi, ?_⟩
    · rw [hp]
      simp [Event.isFetchCall]
    · rw [hp]
      simp

/-- Claim C10 witness: in the all-success stub run, the single fetch hits
the stub's locator and the image decodes the fetched bytes unchanged. -/
theorem locator_passthrough_single_fetch_witness :
    (∃ p b, stubExt.render_bokeh (.structured samplePlot) none = .ok p ∧
       (export_bokeh_to_png stubExt samplePlot none).2.filter
           (fun ev => ev.isFetchCall) = [.fetchCall p] ∧
       stubExt.urlopen_read p = .ok b ∧
       stubExt.image_open b = .ok ⟨10, 10, [137, 80, 78, 71, 13, 10, 26, 10]⟩ ∧
       Event.decodeCall b ∈ (export_bokeh_to_png stubExt samplePlot none).2) ∧
    (∃ p b, stubExt.render_bokeh (.text (Json.dumps samplePlot)) none = .ok p ∧
       (bokeh_to_image stubExt samplePlot none).2.filter
           (fun ev => ev.isFetchCall) = [.fetchCall p] ∧
       stubExt.urlopen_read p = .ok b ∧
       stubExt.image_open b = .ok ⟨10, 10, [137, 80, 78, 71, 13, 10, 26, 10]⟩ ∧
       Event.decodeCall b ∈ (bokeh_to_image stubExt samplePlot none).2) :=
  locator_passthrough_single_fetch stubExt samplePlot none
    ⟨10, 10, [137, 80, 78, 71, 13, 10, 26, 10]⟩
    ⟨10, 10, [137, 80, 78, 71, 13, 10, 26, 10]⟩ rfl rfl
